import Mathlib

/-!
Verification of the vCard QR generator core (`src/main.rs`) against its
natural-language specification.

The source is shallowly embedded: Rust `String` is modelled as Lean `String`
for `generate_vcard` (which only concatenates) and through its UTF-8 byte
view for `parse_color` (which checks byte length and byte-slices, and whose
panicking inputs are captured by an explicit predicate); the image
recoloring step and the `generate_qr` request handler are modelled over
explicit state.  Rust's `u8` values and string bytes are modelled as `Nat`
(every component value produced here is at most 255 by construction: a
two-hex-digit parse with an overflow check).
-/

namespace VCardQr

/-- The `VCardData` struct from `src/main.rs` lines 22-36: required first and
last name, nine optional text fields and an optional color string.  Rust
`Option<String>` becomes `Option String`. -/
structure VCardData where
  first_name : String
  last_name : String
  mobile : Option String
  work : Option String
  email : Option String
  company : Option String
  role : Option String
  street : Option String
  city : Option String
  state : Option String
  website : Option String
  color : Option String

/-- The function `generate_vcard` from `src/main.rs` lines 79-139, translated
push by push.
Each Rust block `if let Some(x) = &data.x { if !x.is_empty() { push } }`
becomes a `match` producing the pushed line or `""`; `has_address` mirrors the
`map_or(false, |s| !s.is_empty())` disjunction on lines 118-120 and the ADR
line uses `unwrap_or(&String::new())` (`Option.getD ""`) for each segment. -/
def generate_vcard (data : VCardData) : String :=
  let vcard := "BEGIN:VCARD\nVERSION:3.0\n"
  let vcard := vcard ++ "FN:" ++ data.first_name ++ " " ++ data.last_name ++ "\n"
  let vcard := vcard ++ "N:" ++ data.last_name ++ ";" ++ data.first_name ++ ";;;\n"
  let vcard := vcard ++ (match data.mobile with
    | some mobile => if mobile.isEmpty then "" else "TEL;TYPE=CELL:" ++ mobile ++ "\n"
    | none => "")
  let vcard := vcard ++ (match data.work with
    | some work => if work.isEmpty then "" else "TEL;TYPE=WORK:" ++ work ++ "\n"
    | none => "")
  let vcard := vcard ++ (match data.email with
    | some email => if email.isEmpty then "" else "EMAIL:" ++ email ++ "\n"
    | none => "")
  let vcard := vcard ++ (match data.company with
    | some company => if company.isEmpty then "" else "ORG:" ++ company ++ "\n"
    | none => "")
  let vcard := vcard ++ (match data.role with
    | some role => if role.isEmpty then "" else "TITLE:" ++ role ++ "\n"
    | none => "")
  let has_address := ((data.street.map (fun s => !s.isEmpty)).getD false)
    || ((data.city.map (fun s => !s.isEmpty)).getD false)
    || ((data.state.map (fun s => !s.isEmpty)).getD false)
  let vcard := if has_address then
      vcard ++ "ADR;TYPE=WORK:;;" ++ data.street.getD "" ++ ";" ++ data.city.getD ""
        ++ ";" ++ data.state.getD "" ++ ";;;\n"
    else vcard
  let vcard := vcard ++ (match data.website with
    | some website => if website.isEmpty then "" else "URL:" ++ website ++ "\n"
    | none => "")
  vcard ++ "END:VCARD"

/-- The UTF-8 encoding of one character, as in the Rust `String`
representation and in core `String.utf8EncodeChar`, with the bytes as `Nat`
(one byte below 128, two bytes up to code point 2047, three up to 65535,
four beyond). -/
def utf8EncodeCharNat (c : Char) : List Nat :=
  if c.toNat < 128 then
    [c.toNat]
  else if c.toNat < 2048 then
    [192 + c.toNat / 64, 128 + c.toNat % 64]
  else if c.toNat < 65536 then
    [224 + c.toNat / 4096, 128 + c.toNat / 64 % 64, 128 + c.toNat % 64]
  else
    [240 + c.toNat / 262144, 128 + c.toNat / 4096 % 64, 128 + c.toNat / 64 % 64,
      128 + c.toNat % 64]

/-- The UTF-8 byte view of a Rust `&str`: what `hex.len()` and the slices
`&hex[0..2]`, `&hex[2..4]`, `&hex[4..6]` in `src/main.rs` lines 141-151
operate on. -/
def utf8Bytes (s : String) : List Nat :=
  s.data.flatMap utf8EncodeCharNat

/-- The expression `color_str.trim_start_matches('#')` from `src/main.rs`
line 142 on the byte view: every leading `'#'` character is removed (Rust
`trim_start_matches` strips all leading occurrences of the pattern, not just
one).  `'#'` is the single byte 35, and in valid UTF-8 a byte 35 is always a
`'#'` character (continuation bytes are 128 and above), so stripping leading
35-bytes is exact. -/
def stripHashBytes : List Nat → List Nat
  | [] => []
  | b :: rest => if b = 35 then stripHashBytes rest else b :: rest

/-- The value of one hexadecimal digit byte, as accepted by Rust's
`u8::from_str_radix(_, 16)` (which iterates the slice's bytes, reading each
as a character): `0`-`9`, `a`-`f`, `A`-`F` (bytes 48-57, 97-102, 65-70);
anything else is not a digit. -/
def hexByteVal? (b : Nat) : Option Nat :=
  if 48 ≤ b ∧ b ≤ 57 then some (b - 48)
  else if 97 ≤ b ∧ b ≤ 102 then some (b - 97 + 10)
  else if 65 ≤ b ∧ b ≤ 70 then some (b - 65 + 10)
  else none

/-- The value of one hexadecimal digit character (its code point read as a
byte); used to state the hex-correctness claims over ASCII digits. -/
def hexVal? (c : Char) : Option Nat :=
  hexByteVal? c.toNat

/-- One step of digit accumulation in `u8::from_str_radix(_, 16)`:
fail on a non-digit byte, and fail when the checked arithmetic would
overflow `u8` (result above 255). -/
def hexAcc (acc : Option Nat) (b : Nat) : Option Nat :=
  match acc, hexByteVal? b with
  | some a, some v => if a * 16 + v ≤ 255 then some (a * 16 + v) else none
  | _, _ => none

/-- The call `u8::from_str_radix(s, 16)` from the Rust standard library, as
invoked on the two-byte slices in `parse_color`: an optional single leading
`'+'` sign (byte 43), then at least one hex digit byte, accumulated with
overflow checking.  (A leading `'-'` is not stripped: for an unsigned target
every `-`-prefixed input either underflows to `Err` or denotes zero, and
both cases coincide with the `none`/`unwrap_or(0)` fallback used by the
caller.) -/
def u8FromStrRadix16 (s : List Nat) : Option Nat :=
  let digits := if s.head? = some 43 then s.tail else s
  match digits with
  | [] => none
  | _ :: _ => digits.foldl hexAcc (some 0)

/-- A UTF-8 continuation byte (10xxxxxx, 128-191).  A byte index inside a
valid UTF-8 string is a character boundary exactly when the byte at it is
not a continuation byte. -/
def isContinuationByte (b : Nat) : Bool :=
  decide (128 ≤ b) && decide (b < 192)

/-- The inputs on which the Rust `parse_color` panics: when the stripped hex
string has byte length 6 but one of the slice boundaries `&hex[0..2]`,
`&hex[2..4]`, `&hex[4..6]` (byte offsets 2 and 4; offsets 0 and 6 are always
boundaries) falls inside a multi-byte character, Rust string indexing panics
instead of returning. -/
def parse_color_panics (color_str : String) : Bool :=
  let hex := stripHashBytes (utf8Bytes color_str)
  if hex.length = 6 then
    isContinuationByte (hex.getD 2 0) || isContinuationByte (hex.getD 4 0)
  else
    false

/-- The function `parse_color` from `src/main.rs` lines 141-151, on the
UTF-8 byte view: `hex.len()` is the byte length and the three components are
the byte pairs 0-1, 2-3, 4-5 of the stripped string, each parsed with
`u8::from_str_radix(_, 16)` and falling back to 0 on failure
(`unwrap_or(0)`); a stripped byte length other than 6 yields black.  This
gives the value of every non-panicking execution; on the inputs singled out
by `parse_color_panics` the Rust function panics in the slicing instead of
returning. -/
def parse_color (color_str : String) : Nat × Nat × Nat :=
  let hex := stripHashBytes (utf8Bytes color_str)
  if hex.length = 6 then
    let r := (u8FromStrRadix16 (hex.take 2)).getD 0
    let g := (u8FromStrRadix16 ((hex.drop 2).take 2)).getD 0
    let b := (u8FromStrRadix16 ((hex.drop 4).take 2)).getD 0
    (r, g, b)
  else
    (0, 0, 0)

/-- A raster image: width, height and pixel data in row-major order, as in
the `image` crate's `ImageBuffer` (pixel `(x, y)` lives at index
`y * width + x`). -/
structure Img (α : Type) where
  width : Nat
  height : Nat
  data : List α

/-- The constructor `ImageBuffer::from_fn(width, height, f)`: pixel `(x, y)` of the result is
`f x y`, stored row-major. -/
def imageFromFn (w h : Nat) (f : Nat → Nat → α) : Img α :=
  ⟨w, h, (List.range (w * h)).map (fun i => f (i % w) (i / w))⟩

/-- The accessor `img.get_pixel(x, y)`: row-major lookup (with an explicit default out of
bounds, where the Rust call would panic; every use below is in bounds). -/
def getPixel (img : Img α) (dflt : α) (x y : Nat) : α :=
  img.data.getD (y * img.width + x) dflt

/-- The recoloring closure from `src/main.rs` lines 407-414: an RGB image of
the same dimensions where a source pixel of luma 0 (a dark module) becomes
the supplied `(r, g, b)` and every other pixel becomes white
`(255, 255, 255)`. -/
def recolorQr (qr_image : Img Nat) (r g b : Nat) : Img (Nat × Nat × Nat) :=
  imageFromFn qr_image.width qr_image.height (fun x y =>
    if getPixel qr_image 0 x y = 0 then (r, g, b) else (255, 255, 255))

/-- The type `image::DynamicImage`, restricted to the two variants the handler
constructs on `src/main.rs` lines 403-418. -/
inductive DynamicImage where
  | luma (img : Img Nat)
  | rgb (img : Img (Nat × Nat × Nat))

/-- The color branch of the handler, `src/main.rs` lines 403-418: with a
color string supplied, parse it and recolor the grayscale QR bitmap; with no
color, keep the single-channel grayscale bitmap. -/
def colorStep (color : Option String) (qr_image : Img Nat) : DynamicImage :=
  match color with
  | some color_str =>
    let c := parse_color color_str
    DynamicImage.rgb (recolorQr qr_image c.1 c.2.1 c.2.2)
  | none => DynamicImage.luma qr_image

/-- Modelled from the spec: the maximum QR capacity in bytes, "~2953 bytes
for the lowest error-correction level" (spec section 4.2).  The encoder itself
is the external `qrcode` crate, whose source is not part of this repository. -/
def QR_MAX_CAPACITY : Nat := 2953

/-- Modelled from the spec: `qrcode::QrCode::new` (external crate), section
4.2 step 1 — encoding succeeds exactly when the input byte content is within
the maximum QR capacity, and otherwise fails with a distinct `EncodingError`;
no other failure mode exists.  The content is the UTF-8 byte view of the
vCard text (`vcard_content.as_bytes()`), so the length is the UTF-8 byte
size. -/
def qrCodeNew (content : String) : Except Unit Unit :=
  if content.utf8ByteSize ≤ QR_MAX_CAPACITY then Except.ok () else Except.error ()

/-- The status codes the `generate_qr` handler can return, `src/main.rs`
lines 358-430. -/
inductive HandlerStatus where
  | unauthorized
  | internalServerError

/-- The `generate_qr` handler from `src/main.rs` lines 358-430, with its
collaborators made explicit: the `vcards` table is a list of rows, the
session check is a boolean, and the QR matrix rendering
(`code.render::<Luma<u8>>().build()`) is a parameter, since it lives in the
external `qrcode` crate.  Steps in source order: authentication check
(line 364), INSERT into `vcards` (lines 369-388, modelled as an append that
always succeeds), vCard generation (line 395), QR encoding with its error
mapped to an internal server error (lines 397-398), rendering and the color
step (lines 400-418).  PNG and base64 encoding (lines 421-425) are modelled
from the spec as total (spec section 4.2: no failure mode besides
EncodingError), so the success value is the `DynamicImage` itself. -/
def generate_qr (render : String → Img Nat) (db : List VCardData)
    (authed : Bool) (data : VCardData) :
    List VCardData × Except HandlerStatus DynamicImage :=
  if !authed then
    (db, Except.error HandlerStatus.unauthorized)
  else
    let db' := db ++ [data]
    let vcard_content := generate_vcard data
    match qrCodeNew vcard_content with
    | Except.error _ => (db', Except.error HandlerStatus.internalServerError)
    | Except.ok _ =>
      let qr_image := render vcard_content
      (db', Except.ok (colorStep data.color qr_image))

/-- Whether an optional field is present and non-empty — the emission
condition the spec attaches to each optional vCard line (spec section 4.1). -/
def presentNonEmpty (o : Option String) : Bool :=
  match o with
  | some s => !s.isEmpty
  | none => false

/-- A conditionally emitted vCard line, per the spec's "only if present and
non-empty" phrasing. -/
def specLine (cond : Bool) (line : String) : String :=
  if cond then line else ""

/-- The vCard formatter as the spec words it (section 4.1): the fixed header,
then the lines FN, N, TEL;TYPE=CELL, TEL;TYPE=WORK, EMAIL, ORG, TITLE,
ADR;TYPE=WORK, URL in exactly this order — each optional line emitted only
when its field is present and non-empty, the ADR line emitted when at least
one of street/city/state is, with absent members as empty segments — and the
terminator `END:VCARD` with no trailing newline.  This definition follows
the spec's words; the theorem for the line-order claim compares it with
`generate_vcard`, which follows the source. -/
def vcardSpecOrder (d : VCardData) : String :=
  "BEGIN:VCARD\nVERSION:3.0\n"
  ++ ("FN:" ++ d.first_name ++ " " ++ d.last_name ++ "\n")
  ++ ("N:" ++ d.last_name ++ ";" ++ d.first_name ++ ";;;\n")
  ++ specLine (presentNonEmpty d.mobile) ("TEL;TYPE=CELL:" ++ d.mobile.getD "" ++ "\n")
  ++ specLine (presentNonEmpty d.work) ("TEL;TYPE=WORK:" ++ d.work.getD "" ++ "\n")
  ++ specLine (presentNonEmpty d.email) ("EMAIL:" ++ d.email.getD "" ++ "\n")
  ++ specLine (presentNonEmpty d.company) ("ORG:" ++ d.company.getD "" ++ "\n")
  ++ specLine (presentNonEmpty d.role) ("TITLE:" ++ d.role.getD "" ++ "\n")
  ++ specLine (presentNonEmpty d.street || presentNonEmpty d.city || presentNonEmpty d.state)
      ("ADR;TYPE=WORK:;;" ++ d.street.getD "" ++ ";" ++ d.city.getD ""
        ++ ";" ++ d.state.getD "" ++ ";;;\n")
  ++ specLine (presentNonEmpty d.website) ("URL:" ++ d.website.getD "" ++ "\n")
  ++ "END:VCARD"

/-- Everything `generate_vcard` emits before the ADR position: header, FN, N
and the five optional lines TEL;TYPE=CELL, TEL;TYPE=WORK, EMAIL, ORG,
TITLE. -/
def vcardBeforeAdr (d : VCardData) : String :=
  "BEGIN:VCARD\nVERSION:3.0\n"
  ++ "FN:" ++ d.first_name ++ " " ++ d.last_name ++ "\n"
  ++ "N:" ++ d.last_name ++ ";" ++ d.first_name ++ ";;;\n"
  ++ specLine (presentNonEmpty d.mobile) ("TEL;TYPE=CELL:" ++ d.mobile.getD "" ++ "\n")
  ++ specLine (presentNonEmpty d.work) ("TEL;TYPE=WORK:" ++ d.work.getD "" ++ "\n")
  ++ specLine (presentNonEmpty d.email) ("EMAIL:" ++ d.email.getD "" ++ "\n")
  ++ specLine (presentNonEmpty d.company) ("ORG:" ++ d.company.getD "" ++ "\n")
  ++ specLine (presentNonEmpty d.role) ("TITLE:" ++ d.role.getD "" ++ "\n")

/-- Everything `generate_vcard` emits after the ADR position: the optional
URL line and the terminator. -/
def vcardAfterAdr (d : VCardData) : String :=
  specLine (presentNonEmpty d.website) ("URL:" ++ d.website.getD "" ++ "\n")
  ++ "END:VCARD"

theorem hexByteVal_le15 (b v : Nat) (h : hexByteVal? b = some v) : v ≤ 15 := by
  unfold hexByteVal? at h
  split at h
  · next hb => simp only [Option.some.injEq] at h; omega
  · split at h
    · next hb => simp only [Option.some.injEq] at h; omega
    · split at h
      · next hb => simp only [Option.some.injEq] at h; omega
      · simp at h

theorem hexByteVal_bounds (b v : Nat) (h : hexByteVal? b = some v) :
    48 ≤ b ∧ b < 128 := by
  unfold hexByteVal? at h
  split at h
  · next hb => omega
  · split at h
    · next hb => omega
    · split at h
      · next hb => omega
      · simp at h

theorem u8FromStrRadix16_pair (b b' v v' : Nat)
    (h : hexByteVal? b = some v) (h' : hexByteVal? b' = some v') :
    u8FromStrRadix16 [b, b'] = some (v * 16 + v') := by
  have hb : b ≠ 43 := by
    have := hexByteVal_bounds b v h
    omega
  have hv : v ≤ 15 := hexByteVal_le15 b v h
  have hv' : v' ≤ 15 := hexByteVal_le15 b' v' h'
  unfold u8FromStrRadix16
  simp only [List.head?, Option.some.injEq, hb, if_neg]
  simp only [List.foldl, hexAcc, h, h']
  have h16 : v * 16 + v' ≤ 255 := by omega
  have hvq : v ≤ 255 := by omega
  simp [hvq, h16]

theorem stripHashBytes_noHash (b : Nat) (l : List Nat) (h : b ≠ 35) :
    stripHashBytes (b :: l) = b :: l := by
  unfold stripHashBytes
  simp [h]

theorem utf8EncodeCharNat_ascii (c : Char) (h : c.toNat < 128) :
    utf8EncodeCharNat c = [c.toNat] := by
  unfold utf8EncodeCharNat
  rw [if_pos h]

theorem utf8Bytes_mk (l : List Char) :
    utf8Bytes (String.mk l) = l.flatMap utf8EncodeCharNat := rfl

theorem parse_color_sixHex (c₁ c₂ c₃ c₄ c₅ c₆ : Char) (v₁ v₂ v₃ v₄ v₅ v₆ : Nat)
    (h₁ : hexVal? c₁ = some v₁) (h₂ : hexVal? c₂ = some v₂)
    (h₃ : hexVal? c₃ = some v₃) (h₄ : hexVal? c₄ = some v₄)
    (h₅ : hexVal? c₅ = some v₅) (h₆ : hexVal? c₆ = some v₆) :
    parse_color (String.mk [c₁, c₂, c₃, c₄, c₅, c₆])
      = (v₁ * 16 + v₂, v₃ * 16 + v₄, v₅ * 16 + v₆)
    ∧ parse_color (String.mk ['#', c₁, c₂, c₃, c₄, c₅, c₆])
      = (v₁ * 16 + v₂, v₃ * 16 + v₄, v₅ * 16 + v₆) := by
  have h₁' : hexByteVal? c₁.toNat = some v₁ := h₁
  have h₂' : hexByteVal? c₂.toNat = some v₂ := h₂
  have h₃' : hexByteVal? c₃.toNat = some v₃ := h₃
  have h₄' : hexByteVal? c₄.toNat = some v₄ := h₄
  have h₅' : hexByteVal? c₅.toNat = some v₅ := h₅
  have h₆' : hexByteVal? c₆.toNat = some v₆ := h₆
  have lt₁ : c₁.toNat < 128 := (hexByteVal_bounds _ _ h₁').2
  have lt₂ : c₂.toNat < 128 := (hexByteVal_bounds _ _ h₂').2
  have lt₃ : c₃.toNat < 128 := (hexByteVal_bounds _ _ h₃').2
  have lt₄ : c₄.toNat < 128 := (hexByteVal_bounds _ _ h₄').2
  have lt₅ : c₅.toNat < 128 := (hexByteVal_bounds _ _ h₅').2
  have lt₆ : c₆.toNat < 128 := (hexByteVal_bounds _ _ h₆').2
  have ne₁ : c₁.toNat ≠ 35 := by
    have := (hexByteVal_bounds _ _ h₁').1
    omega
  have hbytes : utf8Bytes (String.mk [c₁, c₂, c₃, c₄, c₅, c₆])
      = [c₁.toNat, c₂.toNat, c₃.toNat, c₄.toNat, c₅.toNat, c₆.toNat] := by
    simp [utf8Bytes_mk, utf8EncodeCharNat_ascii _ lt₁, utf8EncodeCharNat_ascii _ lt₂,
      utf8EncodeCharNat_ascii _ lt₃, utf8EncodeCharNat_ascii _ lt₄,
      utf8EncodeCharNat_ascii _ lt₅, utf8EncodeCharNat_ascii _ lt₆]
  have key : parse_color (String.mk [c₁, c₂, c₃, c₄, c₅, c₆])
      = (v₁ * 16 + v₂, v₃ * 16 + v₄, v₅ * 16 + v₆) := by
    unfold parse_color
    rw [hbytes, stripHashBytes_noHash _ _ ne₁]
    simp only [List.length_cons, List.length_nil, if_pos rfl, List.take, List.drop]
    rw [u8FromStrRadix16_pair _ _ _ _ h₁' h₂', u8FromStrRadix16_pair _ _ _ _ h₃' h₄',
      u8FromStrRadix16_pair _ _ _ _ h₅' h₆']
    rfl
  refine ⟨key, ?_⟩
  rw [← key]
  unfold parse_color
  have hbytes2 : utf8Bytes (String.mk ['#', c₁, c₂, c₃, c₄, c₅, c₆])
      = 35 :: [c₁.toNat, c₂.toNat, c₃.toNat, c₄.toNat, c₅.toNat, c₆.toNat] := by
    simp [utf8Bytes_mk, utf8EncodeCharNat_ascii _ lt₁, utf8EncodeCharNat_ascii _ lt₂,
      utf8EncodeCharNat_ascii _ lt₃, utf8EncodeCharNat_ascii _ lt₄,
      utf8EncodeCharNat_ascii _ lt₅, utf8EncodeCharNat_ascii _ lt₆,
      show utf8EncodeCharNat '#' = [35] from by decide]
  rw [hbytes2, hbytes]
  rw [show stripHashBytes
        (35 :: [c₁.toNat, c₂.toNat, c₃.toNat, c₄.toNat, c₅.toNat, c₆.toNat])
      = stripHashBytes [c₁.toNat, c₂.toNat, c₃.toNat, c₄.toNat, c₅.toNat, c₆.toNat]
    from by simp [stripHashBytes]]

theorem parse_color_bad_length (s : String)
    (h : (stripHashBytes (utf8Bytes s)).length ≠ 6) : parse_color s = (0, 0, 0) := by
  unfold parse_color
  simp [h]

theorem parse_color_panics_bad_length (s : String)
    (h : (stripHashBytes (utf8Bytes s)).length ≠ 6) :
    parse_color_panics s = false := by
  unfold parse_color_panics
  simp [h]

/-- C5, counterexample: the input "FF00GG" is not six hexadecimal characters
('G' is byte 71, not a hex digit) and strips to six bytes, yet `parse_color`
returns (255, 0, 0), not black (0, 0, 0) — each component falls back to 0
individually, so the claim's blanket black fallback is false; moreover
malformed input can crash: "a§§b" strips to six bytes with a continuation
byte at offset 2, where the Rust byte slice panics. -/
theorem parse_color_blanket_fallback_false :
    hexByteVal? 71 = none ∧ (stripHashBytes (utf8Bytes "FF00GG")).length = 6
    ∧ parse_color "FF00GG" = (255, 0, 0) ∧ parse_color "FF00GG" ≠ (0, 0, 0)
    ∧ parse_color_panics "a§§b" = true := by
  decide

/-- C5, amended: for every input string whose UTF-8 byte length after
stripping leading '#' characters is not exactly 6, `parse_color` returns
black (0, 0, 0) and cannot panic; a six-byte input is parsed as three 2-byte
components, each invalid component falling back to 0 individually (so
"éabcd", six bytes, gives (0, 171, 205)), and it panics — rather than
reporting an error — exactly when byte offset 2 or 4 falls inside a
multi-byte character.  The claim's own examples "red", "#12" and "#GGGGGG"
do resolve to black. -/
theorem parse_color_wrong_length_black (s : String)
    (h : (stripHashBytes (utf8Bytes s)).length ≠ 6) :
    (parse_color s = (0, 0, 0) ∧ parse_color_panics s = false)
    ∧ parse_color "red" = (0, 0, 0) ∧ parse_color "#12" = (0, 0, 0)
    ∧ parse_color "#GGGGGG" = (0, 0, 0) ∧ parse_color "éabcd" = (0, 171, 205) :=
  ⟨⟨parse_color_bad_length s h, parse_color_panics_bad_length s h⟩,
   by decide, by decide, by decide, by decide⟩

theorem parse_color_wrong_length_black_witness :
    parse_color "red" = (0, 0, 0) ∧ parse_color_panics "red" = false :=
  (parse_color_wrong_length_black "red" (by decide)).1

/-- C6: `parse_color` accepts a string of the form RRGGBB with the leading
'#' optional, parsing each byte as a 2-hex-digit value; in particular
`parse_color "#FF00FF" = (255, 0, 255)` and
`parse_color "00FF00" = (0, 255, 0)`. -/
theorem parse_color_rrggbb :
    (∀ (c₁ c₂ c₃ c₄ c₅ c₆ : Char) (v₁ v₂ v₃ v₄ v₅ v₆ : Nat),
      hexVal? c₁ = some v₁ → hexVal? c₂ = some v₂ → hexVal? c₃ = some v₃ →
      hexVal? c₄ = some v₄ → hexVal? c₅ = some v₅ → hexVal? c₆ = some v₆ →
      parse_color (String.mk [c₁, c₂, c₃, c₄, c₅, c₆])
          = (v₁ * 16 + v₂, v₃ * 16 + v₄, v₅ * 16 + v₆)
        ∧ parse_color (String.mk ['#', c₁, c₂, c₃, c₄, c₅, c₆])
          = (v₁ * 16 + v₂, v₃ * 16 + v₄, v₅ * 16 + v₆))
    ∧ parse_color "#FF00FF" = (255, 0, 255) ∧ parse_color "00FF00" = (0, 255, 0) :=
  ⟨fun c₁ c₂ c₃ c₄ c₅ c₆ v₁ v₂ v₃ v₄ v₅ v₆ h₁ h₂ h₃ h₄ h₅ h₆ =>
    parse_color_sixHex c₁ c₂ c₃ c₄ c₅ c₆ v₁ v₂ v₃ v₄ v₅ v₆ h₁ h₂ h₃ h₄ h₅ h₆,
   by decide, by decide⟩

theorem parse_color_rrggbb_witness :
    parse_color (String.mk ['F', 'F', '0', '0', 'F', 'F']) = (255, 0, 255)
    ∧ parse_color (String.mk ['#', 'F', 'F', '0', '0', 'F', 'F']) = (255, 0, 255) := by
  have h := parse_color_rrggbb.1 'F' 'F' '0' '0' 'F' 'F' 15 15 0 0 15 15
    (by decide) (by decide) (by decide) (by decide) (by decide) (by decide)
  exact ⟨h.1, h.2⟩

theorem map_getD_presentNonEmpty (o : Option String) :
    (o.map (fun s => !s.isEmpty)).getD false = presentNonEmpty o := by
  cases o <;> rfl

theorem if_empty_swap (b : Bool) (L : String) :
    (if b then "" else L) = specLine (!b) L := by
  cases b <;> rfl

theorem append_ite_line (c : Bool) (X A : String) :
    (if c then X ++ A else X) = X ++ specLine c A := by
  cases c <;> simp [specLine]

theorem presentNonEmpty_some (s : String) : presentNonEmpty (some s) = !s.isEmpty := rfl

theorem presentNonEmpty_none : presentNonEmpty none = false := rfl

theorem specLine_true (L : String) : specLine true L = L := rfl

theorem specLine_false (L : String) : specLine false L = "" := rfl

set_option maxHeartbeats 1600000 in
theorem generate_vcard_decomp (d : VCardData) :
    generate_vcard d = vcardBeforeAdr d
      ++ specLine (presentNonEmpty d.street || presentNonEmpty d.city || presentNonEmpty d.state)
        ("ADR;TYPE=WORK:;;" ++ d.street.getD "" ++ ";" ++ d.city.getD ""
          ++ ";" ++ d.state.getD "" ++ ";;;\n")
      ++ vcardAfterAdr d := by
  obtain ⟨fn, ln, mo, wk, em, co, ro, st, ci, sa, we, cl⟩ := d
  cases hc : (presentNonEmpty st || presentNonEmpty ci || presentNonEmpty sa) <;>
  cases mo <;> cases wk <;> cases em <;> cases co <;> cases ro <;> cases we <;>
    simp only [generate_vcard, vcardBeforeAdr, vcardAfterAdr, map_getD_presentNonEmpty,
      presentNonEmpty_some, presentNonEmpty_none, if_empty_swap, specLine_true,
      specLine_false, hc, Bool.false_eq_true, eq_self_iff_true, if_true, if_false,
      Option.getD_some, String.append_assoc, String.append_empty, String.empty_append]

theorem presentNonEmpty_noneOrEmpty (o : Option String)
    (h : o = none ∨ o = some "") : presentNonEmpty o = false := by
  rcases h with h | h <;> subst h <;> rfl

/-- C1: for every `VCardData` in which only the names are set (every optional
field absent or the empty string), `generate_vcard` returns exactly the
string "BEGIN:VCARD\nVERSION:3.0\nFN: first last\nN: last;first;;;\nEND:VCARD"
with the names spliced in — beginning with the fixed header and ending with
"END:VCARD" with no trailing newline. -/
theorem generate_vcard_names_only (d : VCardData)
    (hmo : d.mobile = none ∨ d.mobile = some "")
    (hwk : d.work = none ∨ d.work = some "")
    (hem : d.email = none ∨ d.email = some "")
    (hco : d.company = none ∨ d.company = some "")
    (hro : d.role = none ∨ d.role = some "")
    (hst : d.street = none ∨ d.street = some "")
    (hci : d.city = none ∨ d.city = some "")
    (hsa : d.state = none ∨ d.state = some "")
    (hwe : d.website = none ∨ d.website = some "") :
    generate_vcard d
      = "BEGIN:VCARD\nVERSION:3.0\n" ++ "FN:" ++ d.first_name ++ " " ++ d.last_name
        ++ "\n" ++ "N:" ++ d.last_name ++ ";" ++ d.first_name ++ ";;;\n" ++ "END:VCARD" := by
  rw [generate_vcard_decomp]
  unfold vcardBeforeAdr vcardAfterAdr
  rw [presentNonEmpty_noneOrEmpty _ hmo, presentNonEmpty_noneOrEmpty _ hwk,
    presentNonEmpty_noneOrEmpty _ hem, presentNonEmpty_noneOrEmpty _ hco,
    presentNonEmpty_noneOrEmpty _ hro, presentNonEmpty_noneOrEmpty _ hst,
    presentNonEmpty_noneOrEmpty _ hci, presentNonEmpty_noneOrEmpty _ hsa,
    presentNonEmpty_noneOrEmpty _ hwe]
  simp only [specLine_false, Bool.false_or, Bool.or_false, String.append_empty,
    String.empty_append, String.append_assoc]

theorem generate_vcard_names_only_witness :
    generate_vcard ⟨"Ada", "Lovelace", none, none, none, none, none, none, none, none,
      none, none⟩
      = "BEGIN:VCARD\nVERSION:3.0\nFN:Ada Lovelace\nN:Lovelace;Ada;;;\nEND:VCARD" :=
  (generate_vcard_names_only
    ⟨"Ada", "Lovelace", none, none, none, none, none, none, none, none, none, none⟩
    (Or.inl rfl) (Or.inl rfl) (Or.inl rfl) (Or.inl rfl) (Or.inl rfl) (Or.inl rfl)
    (Or.inl rfl) (Or.inl rfl) (Or.inl rfl)).trans (by decide)

/-- C2: for each of the nine optional fields and every `VCardData`,
setting the field to `none` produces output byte-identical to setting it to
`some ""` — emptiness and absence are interchangeable, and in both cases the
corresponding vCard line is suppressed. -/
theorem generate_vcard_none_empty_equiv (d : VCardData) :
    (generate_vcard { d with mobile := none } = generate_vcard { d with mobile := some "" })
    ∧ (generate_vcard { d with work := none } = generate_vcard { d with work := some "" })
    ∧ (generate_vcard { d with email := none } = generate_vcard { d with email := some "" })
    ∧ (generate_vcard { d with company := none } = generate_vcard { d with company := some "" })
    ∧ (generate_vcard { d with role := none } = generate_vcard { d with role := some "" })
    ∧ (generate_vcard { d with street := none } = generate_vcard { d with street := some "" })
    ∧ (generate_vcard { d with city := none } = generate_vcard { d with city := some "" })
    ∧ (generate_vcard { d with state := none } = generate_vcard { d with state := some "" })
    ∧ (generate_vcard { d with website := none } = generate_vcard { d with website := some "" }) :=
  ⟨rfl, rfl, rfl, rfl, rfl, rfl, rfl, rfl, rfl⟩

/-- C3: `generate_vcard` emits the ADR line exactly when at least one of
street, city, state is present and non-empty (the `specLine` factor below is
the ADR line under that condition and the empty string otherwise), and a
missing member renders as an empty segment: street "Main St" with city and
state absent yields the line "ADR;TYPE=WORK:;;Main St;;;;;\n". -/
theorem generate_vcard_adr_emission :
    (∀ d : VCardData,
      generate_vcard d = vcardBeforeAdr d
        ++ specLine (presentNonEmpty d.street || presentNonEmpty d.city || presentNonEmpty d.state)
          ("ADR;TYPE=WORK:;;" ++ d.street.getD "" ++ ";" ++ d.city.getD ""
            ++ ";" ++ d.state.getD "" ++ ";;;\n")
        ++ vcardAfterAdr d)
    ∧ generate_vcard ⟨"", "", none, none, none, none, none, some "Main St", none, none,
        none, none⟩
      = "BEGIN:VCARD\nVERSION:3.0\nFN: \nN:;;;;\nADR;TYPE=WORK:;;Main St;;;;;\nEND:VCARD" :=
  ⟨generate_vcard_decomp, by decide⟩

/-- C8, counterexample: `parse_color` does not succeed on every input — the
program panics on "a§§b", whose stripped form is six bytes with a
continuation byte at slice offset 2, so the Rust byte slice `&hex[0..2]`
hits a non-character boundary. -/
theorem parse_color_not_total :
    parse_color_panics "a§§b" = true
    ∧ (stripHashBytes (utf8Bytes "a§§b")).length = 6
    ∧ isContinuationByte ((stripHashBytes (utf8Bytes "a§§b")).getD 2 0) = true := by
  decide

/-- C8, amended: `generate_vcard` is a total, deterministic, side-effect-free
function emitting the lines in the fixed order FN, N, TEL;TYPE=CELL,
TEL;TYPE=WORK, EMAIL, ORG, TITLE, ADR;TYPE=WORK, URL, END:VCARD with each
optional line appearing only when its field is present and non-empty (the
spec-side formatter `vcardSpecOrder` states exactly that order);
`parse_color` is deterministic and side-effect-free but not total — it
panics exactly when the stripped input is six UTF-8 bytes with a slice
boundary inside a multi-byte character, and outside the six-byte window it
always succeeds. -/
theorem generate_vcard_fixed_order :
    (∀ d₁ d₂ : VCardData, d₁ = d₂ → generate_vcard d₁ = generate_vcard d₂)
    ∧ (∀ s₁ s₂ : String, s₁ = s₂ → parse_color s₁ = parse_color s₂)
    ∧ (∀ d : VCardData, generate_vcard d = vcardSpecOrder d)
    ∧ (∀ s : String, (stripHashBytes (utf8Bytes s)).length ≠ 6 →
        parse_color_panics s = false) := by
  refine ⟨fun d₁ d₂ h => by rw [h], fun s₁ s₂ h => by rw [h], fun d => ?_,
    fun s h => parse_color_panics_bad_length s h⟩
  rw [generate_vcard_decomp d]
  unfold vcardSpecOrder vcardBeforeAdr vcardAfterAdr
  simp only [String.append_assoc]

theorem generate_vcard_fixed_order_witness :
    generate_vcard ⟨"Jane", "Doe", none, none, some "jane@example.com", none, none, none,
        none, none, none, some "#0000FF"⟩
      = generate_vcard ⟨"Jane", "Doe", none, none, some "jane@example.com", none, none,
        none, none, none, none, some "#0000FF"⟩
    ∧ parse_color "#0000FF" = parse_color "#0000FF"
    ∧ generate_vcard ⟨"Jane", "Doe", none, none, some "jane@example.com", none, none,
        none, none, none, none, some "#0000FF"⟩
      = vcardSpecOrder ⟨"Jane", "Doe", none, none, some "jane@example.com", none, none,
        none, none, none, none, some "#0000FF"⟩
    ∧ parse_color_panics "red" = false :=
  ⟨generate_vcard_fixed_order.1 _ _ rfl, generate_vcard_fixed_order.2.1 _ _ rfl,
   generate_vcard_fixed_order.2.2.1 _, generate_vcard_fixed_order.2.2.2 "red" (by decide)⟩

theorem getPixel_imageFromFn {α : Type} (w h : Nat) (f : Nat → Nat → α) (dflt : α)
    (x y : Nat) (hx : x < w) (hy : y < h) :
    getPixel (imageFromFn w h f) dflt x y = f x y := by
  unfold getPixel imageFromFn
  have hw : 0 < w := Nat.pos_of_ne_zero (by omega)
  have hidx : y * w + x < w * h := by
    calc y * w + x < y * w + w := Nat.add_lt_add_left hx _
      _ = (y + 1) * w := by ring
      _ ≤ h * w := Nat.mul_le_mul_right w hy
      _ = w * h := Nat.mul_comm h w
  rw [List.getD_eq_getElem?_getD, List.getElem?_map, List.getElem?_range hidx]
  simp only [Option.map_some', Option.getD_some]
  congr 1
  · rw [Nat.add_comm, Nat.add_mul_mod_self_right, Nat.mod_eq_of_lt hx]
  · rw [Nat.add_comm, Nat.add_mul_div_right _ _ hw, Nat.div_eq_of_lt hx, Nat.zero_add]

/-- C7: when a color (r, g, b) is supplied, recoloring maps the bitmap
pointwise — a dark-module pixel (luma 0) becomes exactly (r, g, b) and every
other pixel becomes (255, 255, 255) — the recolored image keeps the source's
width and height, and with no color supplied the handler keeps the
single-channel grayscale bitmap unchanged. -/
theorem qr_recolor_pointwise (img : Img Nat) (r g b : Nat) :
    (recolorQr img r g b).width = img.width
    ∧ (recolorQr img r g b).height = img.height
    ∧ (∀ x y : Nat, x < img.width → y < img.height →
        getPixel (recolorQr img r g b) (0, 0, 0) x y
          = if getPixel img 0 x y = 0 then (r, g, b) else (255, 255, 255))
    ∧ (∀ cstr : String, colorStep (some cstr) img
        = DynamicImage.rgb (recolorQr img (parse_color cstr).1 (parse_color cstr).2.1
            (parse_color cstr).2.2))
    ∧ colorStep none img = DynamicImage.luma img := by
  refine ⟨rfl, rfl, fun x y hx hy => ?_, fun cstr => rfl, rfl⟩
  exact getPixel_imageFromFn img.width img.height _ _ x y hx hy

theorem qr_recolor_pointwise_witness :
    getPixel (recolorQr ⟨2, 1, [0, 5]⟩ 9 8 7) (0, 0, 0) 0 0 = (9, 8, 7)
    ∧ getPixel (recolorQr ⟨2, 1, [0, 5]⟩ 9 8 7) (0, 0, 0) 1 0 = (255, 255, 255) := by
  have h1 := (qr_recolor_pointwise ⟨2, 1, [0, 5]⟩ 9 8 7).2.2.1 0 0 (by decide) (by decide)
  have h2 := (qr_recolor_pointwise ⟨2, 1, [0, 5]⟩ 9 8 7).2.2.1 1 0 (by decide) (by decide)
  exact ⟨h1.trans (by decide), h2.trans (by decide)⟩

theorem utf8ByteSize_data (s : String) :
    s.utf8ByteSize = String.utf8Len s.data := by
  cases s
  rfl

theorem utf8ByteSize_append (s t : String) :
    (s ++ t).utf8ByteSize = s.utf8ByteSize + t.utf8ByteSize := by
  rw [utf8ByteSize_data, utf8ByteSize_data, utf8ByteSize_data, String.data_append,
    String.utf8Len_append]

theorem utf8Len_replicate (n : Nat) (c : Char) :
    String.utf8Len (List.replicate n c) = n * c.utf8Size := by
  induction n with
  | zero => simp
  | succ n ih =>
    simp [List.replicate_succ, ih]
    ring

theorem generate_vcard_size_names_only (fn ln : String) :
    (generate_vcard ⟨fn, ln, none, none, none, none, none, none, none, none, none,
      none⟩).utf8ByteSize
      = 45 + 2 * fn.utf8ByteSize + 2 * ln.utf8ByteSize := by
  have hform := generate_vcard_decomp
    ⟨fn, ln, none, none, none, none, none, none, none, none, none, none⟩
  simp only [vcardBeforeAdr, vcardAfterAdr, presentNonEmpty_none, specLine_false,
    Bool.false_or, Bool.or_false, String.append_empty, String.empty_append] at hform
  rw [hform]
  simp only [utf8ByteSize_append]
  have e1 : ("BEGIN:VCARD\nVERSION:3.0\n" : String).utf8ByteSize = 24 := by decide
  have e2 : ("FN:" : String).utf8ByteSize = 3 := by decide
  have e3 : (" " : String).utf8ByteSize = 1 := by decide
  have e4 : ("\n" : String).utf8ByteSize = 1 := by decide
  have e5 : ("N:" : String).utf8ByteSize = 2 := by decide
  have e6 : (";" : String).utf8ByteSize = 1 := by decide
  have e7 : (";;;\n" : String).utf8ByteSize = 4 := by decide
  have e8 : ("END:VCARD" : String).utf8ByteSize = 9 := by decide
  omega

theorem bigString_over_capacity (n : Nat) (hn : 2954 ≤ n) :
    QR_MAX_CAPACITY
      < (generate_vcard ⟨String.mk (List.replicate n 'a'), "", none, none, none, none,
          none, none, none, none, none, none⟩).utf8ByteSize := by
  rw [generate_vcard_size_names_only]
  have h1 : (String.mk (List.replicate n 'a')).utf8ByteSize = n := by
    rw [String.utf8ByteSize_mk, utf8Len_replicate,
      show Char.utf8Size 'a' = 1 from by decide, Nat.mul_one]
  have h2 : ("" : String).utf8ByteSize = 0 := by decide
  rw [h1, h2]
  unfold QR_MAX_CAPACITY
  omega

theorem qrCodeNew_ok_of_le (s : String) (h : s.utf8ByteSize ≤ QR_MAX_CAPACITY) :
    qrCodeNew s = Except.ok () := by
  unfold qrCodeNew
  rw [if_pos h]

theorem qrCodeNew_error_of_gt (s : String) (h : QR_MAX_CAPACITY < s.utf8ByteSize) :
    qrCodeNew s = Except.error () := by
  unfold qrCodeNew
  rw [if_neg (by omega)]

/-- C4: QR encoding succeeds for every input whose byte content is at or
under the maximum QR capacity and fails with the distinct EncodingError for
every input over it, and the handler maps that error to an internal server
error response — never truncating — while an input that encodes leads to the
success response; no other failure mode exists in the renderer model. -/
theorem qr_capacity_boundary :
    (∀ s : String, s.utf8ByteSize ≤ QR_MAX_CAPACITY → qrCodeNew s = Except.ok ())
    ∧ (∀ s : String, QR_MAX_CAPACITY < s.utf8ByteSize → qrCodeNew s = Except.error ())
    ∧ (∀ (render : String → Img Nat) (db : List VCardData) (data : VCardData),
        qrCodeNew (generate_vcard data) = Except.error () →
        generate_qr render db true data
          = (db ++ [data], Except.error HandlerStatus.internalServerError))
    ∧ (∀ (render : String → Img Nat) (db : List VCardData) (data : VCardData),
        qrCodeNew (generate_vcard data) = Except.ok () →
        generate_qr render db true data
          = (db ++ [data],
             Except.ok (colorStep data.color (render (generate_vcard data))))) := by
  refine ⟨qrCodeNew_ok_of_le, qrCodeNew_error_of_gt, fun render db data h => ?_,
    fun render db data h => ?_⟩
  · simp [generate_qr, h]
  · simp [generate_qr, h]

/-- C10: the handler inserts the submitted record into the vcards table
before QR encoding is attempted, so when encoding fails the handler returns
an error response while the record remains persisted — the request is not
atomic with respect to the store. -/
theorem generate_qr_persists_on_error (render : String → Img Nat)
    (db : List VCardData) (data : VCardData)
    (h : qrCodeNew (generate_vcard data) = Except.error ()) :
    generate_qr render db true data
      = (db ++ [data], Except.error HandlerStatus.internalServerError)
    ∧ data ∈ (generate_qr render db true data).1 := by
  have hmain : generate_qr render db true data
      = (db ++ [data], Except.error HandlerStatus.internalServerError) := by
    simp [generate_qr, h]
  refine ⟨hmain, ?_⟩
  rw [hmain]
  simp

theorem qr_capacity_boundary_witness :
    qrCodeNew "abc" = Except.ok ()
    ∧ qrCodeNew (String.mk (List.replicate 2954 'a')) = Except.error ()
    ∧ generate_qr (fun _ => ⟨1, 1, [0]⟩) [] true
        ⟨String.mk (List.replicate 2954 'a'), "", none, none, none, none, none, none,
          none, none, none, none⟩
      = ([⟨String.mk (List.replicate 2954 'a'), "", none, none, none, none, none, none,
          none, none, none, none⟩], Except.error HandlerStatus.internalServerError)
    ∧ generate_qr (fun _ => ⟨1, 1, [0]⟩) [] true
        ⟨"Jane", "Doe", none, none, none, none, none, none, none, none, none, none⟩
      = ([⟨"Jane", "Doe", none, none, none, none, none, none, none, none, none, none⟩],
         Except.ok (colorStep none ((fun _ => (⟨1, 1, [0]⟩ : Img Nat))
           (generate_vcard ⟨"Jane", "Doe", none, none, none, none, none, none, none,
             none, none, none⟩)))) :=
  ⟨qr_capacity_boundary.1 "abc" (by decide),
   qr_capacity_boundary.2.1 (String.mk (List.replicate 2954 'a'))
     (by rw [String.utf8ByteSize_mk, utf8Len_replicate]; decide),
   qr_capacity_boundary.2.2.1 (fun _ => ⟨1, 1, [0]⟩) []
     ⟨String.mk (List.replicate 2954 'a'), "", none, none, none, none, none, none,
       none, none, none, none⟩
     (qrCodeNew_error_of_gt _ (bigString_over_capacity 2954 (by decide))),
   qr_capacity_boundary.2.2.2 (fun _ => ⟨1, 1, [0]⟩) []
     ⟨"Jane", "Doe", none, none, none, none, none, none, none, none, none, none⟩
     (qrCodeNew_ok_of_le _ (by decide))⟩

theorem generate_qr_persists_on_error_witness :
    generate_qr (fun _ => ⟨1, 1, [0]⟩) [] true
        ⟨String.mk (List.replicate 2954 'a'), "", none, none, none, none, none, none,
          none, none, none, none⟩
      = ([⟨String.mk (List.replicate 2954 'a'), "", none, none, none, none, none, none,
          none, none, none, none⟩], Except.error HandlerStatus.internalServerError)
    ∧ (⟨String.mk (List.replicate 2954 'a'), "", none, none, none, none, none, none,
          none, none, none, none⟩ : VCardData)
        ∈ (generate_qr (fun _ => ⟨1, 1, [0]⟩) [] true
            ⟨String.mk (List.replicate 2954 'a'), "", none, none, none, none, none,
              none, none, none, none, none⟩).1 :=
  generate_qr_persists_on_error (fun _ => ⟨1, 1, [0]⟩) []
    ⟨String.mk (List.replicate 2954 'a'), "", none, none, none, none, none, none, none,
      none, none, none⟩ (qrCodeNew_error_of_gt _ (bigString_over_capacity 2954 (by decide)))

end VCardQr
